import Mathlib

/-!
Shallow embedding of `src/main.py` (RAG WhatsApp Bot) in Lean 4.

Python strings are modelled as `List Char` (a Python `str` is a sequence of
code points).  The Python string operations the handlers use — `str.strip`,
`str.lower`, `str.split`, the `in` substring test, `str.replace(old, new, 1)`,
`str.endswith` — are re-implemented below with Python's semantics (for the
ASCII fragment the program actually manipulates: `Char.toLower` lowers ASCII
letters, and `isPySpace` covers the ASCII whitespace characters stripped by
`str.strip`).

Every external service call (vector retrieval, LLM generation, the outbound
Evolution-API post, the document loaders, the text splitter, the vector-store
insert) is an opaque oracle passed in as a function that may fail, mirroring
the fact that any of those Python calls may raise.  The handlers are embedded
as total functions returning the response together with a record of which
external effects were performed.
-/

abbrev Str := List Char

/-- Characters stripped by Python `str.strip()` (ASCII fragment). -/
def isPySpace (c : Char) : Bool :=
  c = ' ' || c = '\t' || c = '\n' || c = '\r' || c = '\x0b' || c = '\x0c'

/-- Python `s.strip()`: drop leading and trailing whitespace. -/
def strip (s : Str) : Str :=
  ((s.dropWhile isPySpace).reverse.dropWhile isPySpace).reverse

/-- Python `s.lower()` (ASCII fragment). -/
def toLower (s : Str) : Str := s.map Char.toLower

/-- Python `needle in hay` substring test. -/
def containsSub (needle : Str) : Str → Bool
  | [] => needle.isEmpty
  | h :: t => needle.isPrefixOf (h :: t) || containsSub needle t

/-- Python `s.replace(old, repl, 1)`: replace the first occurrence of `old`
(found case-sensitively, scanning left to right) by `repl`. -/
def replaceFirst (old repl : Str) : Str → Str
  | [] => if old.isEmpty then repl else []
  | h :: t =>
    if old.isPrefixOf (h :: t) then repl ++ (h :: t).drop old.length
    else h :: replaceFirst old repl t

/-- Coerce a Lean string literal to the `List Char` model. -/
def str (s : String) : Str := s.data

/- ------------------------------------------------------------------ -/
/- Data model of the webhook payload fields read by `whatsapp_webhook`. -/

/-- Field `data.message.extendedTextMessage`; `text` is `none` when the
`"text"` key is absent (the code then defaults to `""`). -/
structure ExtendedText where
  text : Option Str
deriving DecidableEq

/-- Field `data.message`; an `Option` field is `none` when the JSON key is
absent (the Python code tests key membership with `in`). -/
structure MessageObj where
  conversation : Option Str
  extendedTextMessage : Option ExtendedText
deriving DecidableEq

/-- The `data` object of the webhook body: the three places the handler
reads.  `messageType = none` models a missing `"messageType"` key
(`data.get("messageType", "")` then yields `""`); likewise `remoteJid`
models `data.get("key", {}).get("remoteJid", "")`. -/
structure WebhookData where
  messageType : Option Str
  remoteJid : Option Str
  message : Option MessageObj
deriving DecidableEq

/-- `msg_type = data.get("messageType", "")` (main.py line 257). -/
def msg_type_of (d : WebhookData) : Str := d.messageType.getD []

/-- `remote_jid = data.get("key", {}).get("remoteJid", "")` (line 262). -/
def jid_of (d : WebhookData) : Str := d.remoteJid.getD []

/-- `sender_phone = remote_jid.split("@")[0]` (line 263). -/
def sender_of (d : WebhookData) : Str := ((jid_of d).splitOn '@').headD []

/-- Lines 266-270: take `message["conversation"]` if that key is present,
else `message["extendedTextMessage"].get("text", "")` if that key is
present, else `""`. -/
def getMessageText (d : WebhookData) : Str :=
  match d.message with
  | none => []
  | some m =>
    match m.conversation with
    | some c => c
    | none =>
      match m.extendedTextMessage with
      | some e => e.text.getD []
      | none => []

/- ------------------------------------------------------------------ -/
/- Settings and the inline helpers of the webhook handler. -/

/-- The process-wide `Settings` object (main.py lines 150-154): the model
name and the raw comma-separated whitelist string. -/
structure Settings where
  model : Str
  whitelist : Str
deriving DecidableEq

/-- Line 277: `[x.strip() for x in whitelist.split(",") if x.strip()]` —
split on commas, strip each entry, keep the non-empty ones. -/
def parse_allow_list (raw : Str) : List Str :=
  ((raw.splitOn ',').map strip).filter (fun x => !x.isEmpty)

/-- The authorization decision inlined at lines 276-280: if the raw
whitelist string is non-empty (Python truthiness), the sender must be a
member of the parsed entry list; an empty raw string authorizes everyone. -/
def is_authorized (sender_id allow_raw : Str) : Bool :=
  if allow_raw ≠ [] then decide (sender_id ∈ parse_allow_list allow_raw) else true

/-- Lines 283-289 factored out: detection is `trigger in text.lower()`
(case-insensitive for the lowercase trigger constant), and on success the
query is `text.replace(trigger, "", 1).strip()` — a case-sensitive removal
of the first occurrence from the original, un-lowered text. -/
def parse_trigger (text trigger : Str) : Option Str :=
  if containsSub trigger (toLower text) then
    some (strip (replaceFirst trigger [] text))
  else none

/- ------------------------------------------------------------------ -/
/- The webhook handler. -/

/-- The JSON status objects the handler can return (lines 259-344). -/
inductive WebhookResponse where
  | ignored_type
  | no_text
  | unauthorized
  | ignored_no_trigger
  | processed (reply : Str)
  | error (message : Str)
deriving DecidableEq

/-- Which external effects a handler invocation performed: whether the
vector retrieval ran, whether the LLM chain was invoked, and whether the
outbound `requests.post` to the Evolution API was attempted. -/
structure Effects where
  retrieveCalled : Bool
  generateCalled : Bool
  sendAttempted : Bool
deriving DecidableEq

/-- The external world: retrieval (line 295 / chain invocation), LLM
generation for a given model, query and retrieved context (lines 298-323),
and the outbound post (line 337).  Each may fail with an exception
message. -/
structure External where
  retrieve : Str → Except Str (List Str)
  generate : Str → Str → List Str → Except Str Str
  send : Str → Str → Except Str Nat

/-- Lines 291-340: the RAG pipeline and outbound send, reached once the
trigger has produced a query.  Failures propagate (to the `except` at the
boundary) with a record of the stages already entered. -/
def rag_and_send (s : Settings) (ext : External) (jid query : Str) :
    WebhookResponse × Effects :=
  match ext.retrieve query with
  | Except.error e => (WebhookResponse.error e, Effects.mk true false false)
  | Except.ok ctx =>
    match ext.generate s.model query ctx with
    | Except.error e => (WebhookResponse.error e, Effects.mk true true false)
    | Except.ok reply =>
      match ext.send jid reply with
      | Except.error e => (WebhookResponse.error e, Effects.mk true true true)
      | Except.ok _code => (WebhookResponse.processed reply, Effects.mk true true true)

/-- `whatsapp_webhook` (main.py lines 249-344).  `body` is the result of
`await request.json()`: `Except.error e` models a raised parse exception,
which — like every other exception in the handler — is caught by the
outermost `except` and turned into the `{"status": "error", ...}` response.
The early returns of the Python code become nested if/else. -/
def whatsapp_webhook (s : Settings) (ext : External) (body : Except Str WebhookData) :
    WebhookResponse × Effects :=
  match body with
  | Except.error e => (WebhookResponse.error e, Effects.mk false false false)
  | Except.ok data =>
    if msg_type_of data ≠ str "conversation" ∧ msg_type_of data ≠ str "extendedTextMessage" then
      (WebhookResponse.ignored_type, Effects.mk false false false)
    else if getMessageText data = [] then
      (WebhookResponse.no_text, Effects.mk false false false)
    else if s.whitelist ≠ [] ∧ sender_of data ∉ parse_allow_list s.whitelist then
      (WebhookResponse.unauthorized, Effects.mk false false false)
    else
      match parse_trigger (getMessageText data) (str "@siri") with
      | none => (WebhookResponse.ignored_no_trigger, Effects.mk false false false)
      | some query => rag_and_send s ext (jid_of data) query

/- ------------------------------------------------------------------ -/
/- Admin endpoints. -/

/-- `verify_admin` (lines 159-162): the Python function returns `True` for
the fixed cookie value and `None` (falsy) otherwise; `none` models an
absent cookie (`auto_error=False`). -/
def verify_admin (cookie : Option Str) : Bool :=
  decide (cookie = some (str "secret_admin_token"))

/-- The two response shapes of the admin POST handlers. -/
inductive AdminResponse where
  | redirect (url : Str)
  | dashboard (message : Str)
deriving DecidableEq

/-- `update_settings` (lines 230-240): unauthenticated requests are
redirected before any mutation; otherwise both fields of the process-wide
settings are overwritten and the dashboard is re-rendered. -/
def update_settings (model_name whitelist : Str) (cookie : Option Str) (s : Settings) :
    AdminResponse × Settings :=
  if ¬ verify_admin cookie then (AdminResponse.redirect (str "/admin"), s)
  else (AdminResponse.dashboard (str "Ayarlar guncellendi."), Settings.mk model_name whitelist)

/- ------------------------------------------------------------------ -/
/- The upload handler. -/

/-- Oracles for the fallible stages of `upload_file`: the PDF loader, the
text loader (raises e.g. on non-UTF-8 bytes), the text splitter, and the
vector-store insert.  Loader results are fixed by the uploaded file's
content, which the oracle record captures. -/
structure UploadEnv where
  loadPdf : Except Str (List Str)
  loadText : Except Str (List Str)
  splitDocs : List Str → Except Str (List Str)
  addDocs : List Str → Except Str Unit

/-- Observable outcome of `upload_file`: whether the temporary file
`temp_{filename}` still exists after the handler returns, the vector-store
contents, and whether the success message was rendered. -/
structure UploadResult where
  tempFileLeft : Bool
  store : List Str
  success : Bool
deriving DecidableEq

/-- `upload_file` (main.py lines 191-228).  The temp file is written, then
the loader is chosen by `filename.endswith(".pdf")` — every other filename
goes to `TextLoader` (there is no extension whitelist in the code).  On the
success path `os.remove` deletes the temp file; any raised exception jumps
to `except`, which only builds an error message — no cleanup runs there. -/
def upload_file (filename : Str) (cookie : Option Str) (env : UploadEnv)
    (store : List Str) : UploadResult :=
  if ¬ verify_admin cookie then UploadResult.mk false store false
  else
    match (if (str ".pdf").isSuffixOf filename then env.loadPdf else env.loadText) with
    | Except.error _ => UploadResult.mk true store false
    | Except.ok docs =>
      match env.splitDocs docs with
      | Except.error _ => UploadResult.mk true store false
      | Except.ok splits =>
        match env.addDocs splits with
        | Except.error _ => UploadResult.mk true store false
        | Except.ok _ => UploadResult.mk false (store ++ splits) true

/- ------------------------------------------------------------------ -/
/- Concrete fixtures used by witnesses and counterexamples. -/

/-- A well-formed conversation payload whose text carries the trigger. -/
def sampleData : WebhookData :=
  WebhookData.mk (some (str "conversation")) (some (str "5551234567@s.whatsapp.net"))
    (some (MessageObj.mk (some (str "@siri what is the refund policy?")) none))

/-- Same payload shape but from a sender outside the sample whitelist. -/
def strangerData : WebhookData :=
  WebhookData.mk (some (str "conversation")) (some (str "31612345678@s.whatsapp.net"))
    (some (MessageObj.mk (some (str "@siri what is the refund policy?")) none))

/-- A payload with the `messageType` key missing entirely. -/
def missingTypeData : WebhookData :=
  WebhookData.mk none (some (str "5551234567@s.whatsapp.net"))
    (some (MessageObj.mk (some (str "@siri hi")) none))

/-- An `extendedTextMessage` payload whose inner object has no `text`
key, so the extracted text defaults to the empty string. -/
def emptyTextData : WebhookData :=
  WebhookData.mk (some (str "extendedTextMessage")) (some (str "31612345678@s.whatsapp.net"))
    (some (MessageObj.mk none (some (ExtendedText.mk none))))

/-- Settings with a populated whitelist. -/
def sampleSettings : Settings :=
  Settings.mk (str "llama3-70b-8192") (str "5551234567, 905321112233")

/-- Settings whose raw whitelist string is empty. -/
def emptySettings : Settings := Settings.mk (str "llama3-70b-8192") []

/-- An external world in which every call succeeds. -/
def extOk : External :=
  External.mk (fun _ => Except.ok []) (fun _ _ _ => Except.ok (str "reply"))
    (fun _ _ => Except.ok 200)

/-- An external world whose vector retrieval raises. -/
def extRetrieveFail : External :=
  External.mk (fun _ => Except.error (str "store down"))
    (fun _ _ _ => Except.ok (str "reply")) (fun _ _ => Except.ok 200)

/-- Upload oracles for a `.docx` whose bytes happen to be valid UTF-8 text:
`TextLoader` (which the code applies to every non-`.pdf` filename)
succeeds. -/
def docxEnv : UploadEnv :=
  UploadEnv.mk (Except.error (str "not a pdf")) (Except.ok [str "hello world"])
    (fun docs => Except.ok docs) (fun _ => Except.ok ())

/-- Upload oracles for a `.txt` whose bytes are not valid UTF-8:
`TextLoader` raises. -/
def badUtf8Env : UploadEnv :=
  UploadEnv.mk (Except.error (str "pdf parse error"))
    (Except.error (str "UnicodeDecodeError")) (fun docs => Except.ok docs)
    (fun _ => Except.ok ())

/-- Upload oracles for a `.txt` whose extraction, splitting and storage
all succeed. -/
def okTextEnv : UploadEnv :=
  UploadEnv.mk (Except.error (str "not a pdf")) (Except.ok [str "refund policy text"])
    (fun docs => Except.ok docs) (fun _ => Except.ok ())

/- ------------------------------------------------------------------ -/
/- Helper lemmas about the string operations. -/

theorem containsSub_eq_true_iff (n : Str) : ∀ h : Str, containsSub n h = true ↔ n <:+: h := by
  intro h
  induction h with
  | nil =>
    simp [containsSub, List.isEmpty_iff]
  | cons a t ih =>
    rw [containsSub, Bool.or_eq_true, ih, List.infix_cons_iff, List.isPrefixOf_iff_prefix]

theorem containsSub_mono {n a b : Str} (hab : a <:+: b) (h : containsSub n a = true) :
    containsSub n b = true := by
  rw [containsSub_eq_true_iff] at h ⊢
  exact h.trans hab

theorem strip_infix_self (s : Str) : strip s <:+: s := by
  have h1 : s.dropWhile isPySpace <:+ s := List.dropWhile_suffix isPySpace
  have h2 : (s.dropWhile isPySpace).reverse.dropWhile isPySpace <:+
      (s.dropWhile isPySpace).reverse := List.dropWhile_suffix isPySpace
  obtain ⟨w, hw⟩ := h2
  have h3 : strip s <+: s.dropWhile isPySpace := by
    refine ⟨w.reverse, ?_⟩
    rw [strip, ← List.reverse_append, hw, List.reverse_reverse]
  exact h3.isInfix.trans h1.isInfix

theorem infix_map (f : Char → Char) {a b : Str} (h : a <:+: b) : a.map f <:+: b.map f := by
  obtain ⟨u, v, huv⟩ := h
  exact ⟨u.map f, v.map f, by rw [← List.map_append, ← List.map_append, huv]⟩

theorem toLower_strip_infix_self (s : Str) : toLower (strip s) <:+: toLower s :=
  infix_map Char.toLower (strip_infix_self s)

theorem toLower_append (a b : Str) : toLower (a ++ b) = toLower a ++ toLower b :=
  List.map_append Char.toLower a b

theorem replaceFirst_append_self (old rest : Str) :
    replaceFirst old [] (old ++ rest) = rest := by
  cases old with
  | nil =>
    cases rest with
    | nil => rfl
    | cons r rs =>
      show replaceFirst [] [] (r :: rs) = r :: rs
      rw [replaceFirst]
      simp [List.isPrefixOf]
  | cons o os =>
    show replaceFirst (o :: os) [] ((o :: os) ++ rest) = rest
    rw [List.cons_append, replaceFirst]
    have hpre : (o :: os).isPrefixOf (o :: (os ++ rest)) = true := by
      rw [List.isPrefixOf_iff_prefix, ← List.cons_append]
      exact List.prefix_append (o :: os) rest
    rw [if_pos hpre, List.nil_append, ← List.cons_append, List.drop_left]

theorem trigger_detected_append {trigger : Str} (rest : Str) (hlow : toLower trigger = trigger) :
    containsSub trigger (toLower (trigger ++ rest)) = true := by
  rw [containsSub_eq_true_iff, toLower_append, hlow]
  exact (List.prefix_append trigger (toLower rest)).isInfix

theorem containsSub_strip_false {trigger rest : Str}
    (hrest : containsSub trigger (toLower rest) = false) :
    containsSub trigger (toLower (strip rest)) = false := by
  rcases Bool.eq_false_or_eq_true (containsSub trigger (toLower (strip rest))) with h | h
  · exact absurd (containsSub_mono (toLower_strip_infix_self rest) h) (by simp [hrest])
  · exact h

/- ------------------------------------------------------------------ -/
/- Sanity checks of the embedding on concrete values. -/

example : parse_allow_list (str "5551234567, 905321112233") =
    [str "5551234567", str "905321112233"] := by decide

example : parse_allow_list (str ",") = [] := by decide

example : parse_trigger (str "@siri what is the refund policy?") (str "@siri") =
    some (str "what is the refund policy?") := by decide

example : parse_trigger (str "hello there") (str "@siri") = none := by decide

/-- Helper for C1: the RAG stage can only produce `processed` or `error`
responses, never `unauthorized`. -/
theorem rag_and_send_fst_ne_unauthorized (s : Settings) (ext : External) (jid q : Str) :
    (rag_and_send s ext jid q).1 ≠ WebhookResponse.unauthorized := by
  unfold rag_and_send
  split
  · simp
  split
  · simp
  split <;> simp

/- ------------------------------------------------------------------ -/
/- Claim theorems. -/

/-- C1, counterexample: the raw whitelist string `","` parses to an empty
entry list, yet the code — which gates on truthiness of the raw string,
not emptiness of the parsed set — denies every sender, and the webhook on
a well-formed triggered payload returns `unauthorized` instead of
proceeding. -/
theorem comma_whitelist_denies_all :
    parse_allow_list (str ",") = [] ∧
    is_authorized (str "5551234567") (str ",") = false ∧
    whatsapp_webhook (Settings.mk (str "llama3-70b-8192") (str ",")) extOk
      (Except.ok sampleData) =
      (WebhookResponse.unauthorized, Effects.mk false false false) := by decide

/-- C1, amended: when the RAW whitelist string is empty (rather than: when
the parsed set is empty), the authorization check returns true for every
sender and the webhook never returns `unauthorized`, whatever the payload
and the external world. -/
theorem empty_raw_whitelist_authorizes_all (sender : Str) (s : Settings) (ext : External)
    (body : Except Str WebhookData) (h : s.whitelist = []) :
    is_authorized sender s.whitelist = true ∧
    (whatsapp_webhook s ext body).1 ≠ WebhookResponse.unauthorized := by
  constructor
  · rw [h]
    rfl
  · cases body with
    | error e => simp [whatsapp_webhook]
    | ok d =>
      simp only [whatsapp_webhook]
      split
      · simp
      split
      · simp
      split
      · rename_i hcond
        exact absurd h hcond.1
      split
      · simp
      · apply rag_and_send_fst_ne_unauthorized

/-- C1, witness for the amended theorem at a concrete sender, settings,
payload and external world. -/
theorem empty_raw_whitelist_authorizes_all_witness :
    is_authorized (str "5551234567") emptySettings.whitelist = true ∧
    (whatsapp_webhook emptySettings extOk (Except.ok sampleData)).1 ≠
      WebhookResponse.unauthorized :=
  empty_raw_whitelist_authorizes_all (str "5551234567") emptySettings extOk
    (Except.ok sampleData) rfl

/-- C2, counterexample: with text `"@SIRI hello"` the case-insensitive
search accepts the uppercase occurrence, but the case-sensitive
`replace(trigger, "", 1)` removes nothing, so the produced query is
`"@SIRI hello"` and not `"hello"` (the text with the occurrence removed
and trimmed), refuting the claim's "removal works for every casing". -/
theorem uppercase_trigger_not_stripped :
    parse_trigger (str "@SIRI hello") (str "@siri") = some (str "@SIRI hello") ∧
    str "@SIRI hello" ≠ str "hello" := by decide

/-- C2, amended: for a lowercase trigger word, detection holds iff the
trigger occurs (case-insensitively) as a substring of the text; the query
is the text with the first CASE-SENSITIVE occurrence removed and trimmed,
which agrees with the claim whenever the trigger occurs verbatim — in
particular for every text beginning with the trigger written exactly as
configured, the query is the trimmed remainder. -/
theorem trigger_detection_and_exact_strip (trigger rest : Str)
    (hlow : toLower trigger = trigger) :
    (∀ text : Str, (parse_trigger text trigger).isSome = containsSub trigger (toLower text)) ∧
    parse_trigger (trigger ++ rest) trigger = some (strip rest) := by
  constructor
  · intro text
    unfold parse_trigger
    rcases Bool.eq_false_or_eq_true (containsSub trigger (toLower text)) with hb | hb <;>
      simp [hb]
  · unfold parse_trigger
    rw [if_pos (trigger_detected_append rest hlow), replaceFirst_append_self]

/-- C2, witness: the spec's own example, derived from the amended theorem.
Text `"@siri what is the refund policy?"` with trigger `"@siri"` yields
the query `"what is the refund policy?"`. -/
theorem trigger_strip_spec_example :
    parse_trigger (str "@siri what is the refund policy?") (str "@siri") =
      some (str "what is the refund policy?") := by
  have h := (trigger_detection_and_exact_strip (str "@siri")
      (str " what is the refund policy?") (by decide)).2
  have happ : str "@siri" ++ str " what is the refund policy?" =
      str "@siri what is the refund policy?" := by decide
  have hstrip : strip (str " what is the refund policy?") =
      str "what is the refund policy?" := by decide
  rw [happ, hstrip] at h
  exact h

/-- C3: with a non-empty parsed allow-list, authorization holds iff the
sender is verbatim among the parsed entries; and a payload that reaches
the whitelist stage from a sender outside the entries makes the webhook
return `unauthorized` with no retrieval, no LLM call and no outbound
send. -/
theorem nonempty_allow_list_exact_match (sender : Str) (s : Settings) (ext : External)
    (d : WebhookData)
    (hne : parse_allow_list s.whitelist ≠ [])
    (hty : msg_type_of d = str "conversation" ∨ msg_type_of d = str "extendedTextMessage")
    (htext : getMessageText d ≠ [])
    (hout : sender_of d ∉ parse_allow_list s.whitelist) :
    (is_authorized sender s.whitelist = true ↔ sender ∈ parse_allow_list s.whitelist) ∧
    whatsapp_webhook s ext (Except.ok d) =
      (WebhookResponse.unauthorized, Effects.mk false false false) := by
  have hraw : s.whitelist ≠ [] := by
    intro hnil
    apply hne
    rw [hnil]
    rfl
  have h1 : ¬(msg_type_of d ≠ str "conversation" ∧
      msg_type_of d ≠ str "extendedTextMessage") := by
    rcases hty with h | h <;> simp [h]
  constructor
  · unfold is_authorized
    rw [if_pos hraw]
    exact decide_eq_true_iff
  · simp only [whatsapp_webhook]
    rw [if_neg h1, if_neg htext, if_pos ⟨hraw, hout⟩]

/-- C3, witness: a sender in the sample whitelist satisfies the iff, and a
payload from `31612345678` (not whitelisted) is rejected with no external
effects. -/
theorem nonempty_allow_list_exact_match_witness :
    (is_authorized (str "5551234567") sampleSettings.whitelist = true ↔
      str "5551234567" ∈ parse_allow_list sampleSettings.whitelist) ∧
    whatsapp_webhook sampleSettings extOk (Except.ok strangerData) =
      (WebhookResponse.unauthorized, Effects.mk false false false) :=
  nonempty_allow_list_exact_match (str "5551234567") sampleSettings extOk strangerData
    (by decide) (by decide) (by decide) (by decide)

/-- C6, counterexample: on `"@siri @siri hello"` the parser produces the
query `"@siri hello"`, and reapplying the parser to that query finds the
trigger again (returning `some "hello"`, not "no trigger found"), so
trigger stripping is not idempotent. -/
theorem double_trigger_not_idempotent :
    parse_trigger (str "@siri @siri hello") (str "@siri") = some (str "@siri hello") ∧
    parse_trigger (str "@siri hello") (str "@siri") = some (str "hello") := by decide

/-- C6, amended: reapplication yields "no trigger found" when the trigger
occurs exactly where the claim's scenarios put it — verbatim in lowercase
at the start of the text and nowhere (case-insensitively) in the
remainder; in general a second occurrence, a differently-cased occurrence,
or an occurrence spliced together by the removal survives into the query
and is detected again. -/
theorem single_prefix_trigger_idempotent (trigger rest : Str)
    (hlow : toLower trigger = trigger)
    (hrest : containsSub trigger (toLower rest) = false) :
    parse_trigger (trigger ++ rest) trigger = some (strip rest) ∧
    parse_trigger (strip rest) trigger = none := by
  constructor
  · unfold parse_trigger
    rw [if_pos (trigger_detected_append rest hlow), replaceFirst_append_self]
  · have hf := containsSub_strip_false hrest
    unfold parse_trigger
    rw [if_neg (by simp [hf])]

/-- C6, witness for the amended theorem at the spec's example text. -/
theorem single_prefix_trigger_idempotent_witness :
    parse_trigger (str "@siri" ++ str " what is the refund policy?") (str "@siri") =
      some (strip (str " what is the refund policy?")) ∧
    parse_trigger (strip (str " what is the refund policy?")) (str "@siri") = none :=
  single_prefix_trigger_idempotent (str "@siri") (str " what is the refund policy?")
    (by decide) (by decide)

/-- C4: the code has no extension check at all — `notes.docx` is routed
to the text loader, ingested, and the vector store IS mutated (one chunk
added, success message rendered), instead of failing with
`UnsupportedFormat` with no store mutation. -/
theorem docx_upload_ingested_not_rejected :
    upload_file (str "notes.docx") (some (str "secret_admin_token")) docxEnv [] =
      UploadResult.mk false [str "hello world"] true := by decide

/-- C5: `os.remove` sits on the success path only (no `finally`), so when
extraction fails the handler jumps to `except` and the temporary file is
left behind; on the success path it is removed. -/
theorem temp_file_left_on_extraction_failure :
    (upload_file (str "data.txt") (some (str "secret_admin_token")) badUtf8Env
      []).tempFileLeft = true ∧
    (upload_file (str "data.txt") (some (str "secret_admin_token")) okTextEnv
      []).tempFileLeft = false := by decide

/-- C7: every failure at the payload-parsing, retrieval or generation
stage is caught and turned into the structured `error` response carrying
the exception message (the handler is total — nothing propagates), and on
such a failure the outbound send is never attempted. -/
theorem pipeline_failures_caught_no_send (s : Settings) (ext : External) (d : WebhookData)
    (q e : Str)
    (hty : msg_type_of d = str "conversation" ∨ msg_type_of d = str "extendedTextMessage")
    (htext : getMessageText d ≠ [])
    (hauth : s.whitelist = [] ∨ sender_of d ∈ parse_allow_list s.whitelist)
    (htrig : parse_trigger (getMessageText d) (str "@siri") = some q) :
    (ext.retrieve q = Except.error e →
      whatsapp_webhook s ext (Except.ok d) =
        (WebhookResponse.error e, Effects.mk true false false)) ∧
    (∀ ctx, ext.retrieve q = Except.ok ctx → ext.generate s.model q ctx = Except.error e →
      whatsapp_webhook s ext (Except.ok d) =
        (WebhookResponse.error e, Effects.mk true true false)) ∧
    (∀ e2 : Str, whatsapp_webhook s ext (Except.error e2) =
      (WebhookResponse.error e2, Effects.mk false false false)) := by
  have h1 : ¬(msg_type_of d ≠ str "conversation" ∧
      msg_type_of d ≠ str "extendedTextMessage") := by
    rcases hty with h | h <;> simp [h]
  have h3 : ¬(s.whitelist ≠ [] ∧ sender_of d ∉ parse_allow_list s.whitelist) := by
    rcases hauth with h | h <;> simp [h]
  have hmain : whatsapp_webhook s ext (Except.ok d) = rag_and_send s ext (jid_of d) q := by
    simp only [whatsapp_webhook]
    rw [if_neg h1, if_neg htext, if_neg h3, htrig]
  refine ⟨?_, ?_, fun e2 => rfl⟩
  · intro hret
    rw [hmain]
    unfold rag_and_send
    rw [hret]
  · intro ctx hret hgen
    rw [hmain]
    simp only [rag_and_send, hret, hgen]

/-- C7, witness: with a failing vector store, the triggered sample payload
produces the structured error response and the send is never attempted. -/
theorem pipeline_failures_caught_no_send_witness :
    whatsapp_webhook emptySettings extRetrieveFail (Except.ok sampleData) =
      (WebhookResponse.error (str "store down"), Effects.mk true false false) :=
  (pipeline_failures_caught_no_send emptySettings extRetrieveFail sampleData
      (str "what is the refund policy?") (str "store down")
      (by decide) (by decide) (Or.inl rfl) (by decide)).1 rfl

/-- C8: a payload whose `messageType` is neither `conversation` nor
`extendedTextMessage` (a missing key gives `""`) yields
`{"status": "ignored_type"}` before the authorization, trigger, retrieval,
generation and send stages, with no external effect. -/
theorem ignored_type_short_circuit (s : Settings) (ext : External) (d : WebhookData)
    (hA : msg_type_of d ≠ str "conversation")
    (hB : msg_type_of d ≠ str "extendedTextMessage") :
    whatsapp_webhook s ext (Except.ok d) =
      (WebhookResponse.ignored_type, Effects.mk false false false) := by
  simp only [whatsapp_webhook]
  rw [if_pos ⟨hA, hB⟩]

/-- C8, witness: a payload with no `messageType` key is ignored with no
effects, even though its sender is whitelisted and its text carries the
trigger. -/
theorem ignored_type_short_circuit_witness :
    whatsapp_webhook sampleSettings extOk (Except.ok missingTypeData) =
      (WebhookResponse.ignored_type, Effects.mk false false false) :=
  ignored_type_short_circuit sampleSettings extOk missingTypeData (by decide) (by decide)

/-- C9: an accepted message type whose extracted text is empty (missing
message object, neither text field present, or an empty string) yields
`{"status": "no_text"}` before the whitelist and trigger checks — the
theorem holds for EVERY settings value, including ones that would have
denied the sender — with no external call. -/
theorem no_text_short_circuit (s : Settings) (ext : External) (d : WebhookData)
    (hty : msg_type_of d = str "conversation" ∨ msg_type_of d = str "extendedTextMessage")
    (htext : getMessageText d = []) :
    whatsapp_webhook s ext (Except.ok d) =
      (WebhookResponse.no_text, Effects.mk false false false) := by
  have h1 : ¬(msg_type_of d ≠ str "conversation" ∧
      msg_type_of d ≠ str "extendedTextMessage") := by
    rcases hty with h | h <;> simp [h]
  simp only [whatsapp_webhook]
  rw [if_neg h1, if_pos htext]

/-- C9, witness: the empty-text payload is answered `no_text` with no
effects under settings whose whitelist would have rejected its sender,
showing the check precedes authorization. -/
theorem no_text_short_circuit_witness :
    whatsapp_webhook sampleSettings extOk (Except.ok emptyTextData) =
      (WebhookResponse.no_text, Effects.mk false false false) :=
  no_text_short_circuit sampleSettings extOk emptyTextData (by decide) (by decide)

/-- C10: a settings-update request whose session cookie is not exactly
`secret_admin_token` (including an absent cookie) gets a redirect and
leaves the process-wide settings untouched: both the model field and the
whitelist field keep their previous values. -/
theorem unauthenticated_settings_unchanged (cookie : Option Str) (m w : Str) (s : Settings)
    (h : cookie ≠ some (str "secret_admin_token")) :
    update_settings m w cookie s = (AdminResponse.redirect (str "/admin"), s) ∧
    (update_settings m w cookie s).2.model = s.model ∧
    (update_settings m w cookie s).2.whitelist = s.whitelist := by
  have hv : verify_admin cookie = false := by
    unfold verify_admin
    exact decide_eq_false h
  unfold update_settings
  rw [hv]
  simp

/-- C10, witness: an absent cookie yields the redirect and the sample
settings survive unchanged. -/
theorem unauthenticated_settings_unchanged_witness :
    update_settings (str "llama3-8b-8192") (str "123") none sampleSettings =
      (AdminResponse.redirect (str "/admin"), sampleSettings) ∧
    (update_settings (str "llama3-8b-8192") (str "123") none sampleSettings).2.model =
      sampleSettings.model ∧
    (update_settings (str "llama3-8b-8192") (str "123") none sampleSettings).2.whitelist =
      sampleSettings.whitelist :=
  unauthenticated_settings_unchanged none (str "llama3-8b-8192") (str "123") sampleSettings
    (by decide)
